import Mathlib

/-!
Verification of the core of the grabador_flask camera-recording service:
the recording supervisor (`recorder.py`), the sunrise/sunset auto-scheduler
(`recording_scheduler.py`) and the storage reclaimer (`storage.py`),
shallowly embedded as executable Lean definitions.  Timestamps are modelled
as `Int` (seconds), byte counts as `Nat`, Python dicts as association lists,
and the filesystem as explicit lists of files.
-/

namespace Grabador

/-! ## Configuration constants (config.py) -/

/-- Config.FFMPEG_RECONNECT_DELAY (config.py line 45): base retry delay, seconds. -/
def FFMPEG_RECONNECT_DELAY : Nat := 5

/-- Config.FFMPEG_MAX_FAILURES (config.py line 46): consecutive-failure threshold. -/
def FFMPEG_MAX_FAILURES : Nat := 5

/-! ## Supervised-run backoff (recorder.py, record_rtsp_stream lines 304-430)

The recording loop keeps a `consecutive_failures` counter.  At the top of
each iteration it computes the retry delay from the current counter value
(lines 306-313); after an unrequested encoder exit it updates the counter
from the exit code (line 418) and then waits the precomputed delay. -/

/-- Retry-delay computation, recorder.py lines 306-313. -/
def retry_delay (consecutive_failures : Nat) : Nat :=
  if consecutive_failures ≥ FFMPEG_MAX_FAILURES then
    min (FFMPEG_RECONNECT_DELAY * 2 ^ (min consecutive_failures 6)) 300
  else
    FFMPEG_RECONNECT_DELAY

/-- Consecutive-failure counter update after a process exit, recorder.py line 418:
`consecutive_failures = consecutive_failures + 1 if return_code != 0 else 0`. -/
def update_failures (consecutive_failures : Nat) (return_code : Int) : Nat :=
  if return_code ≠ 0 then consecutive_failures + 1 else 0

/-- The sequence of delays waited over a run with the given unrequested exit
codes, starting from failure counter `c`: iteration `i` waits the delay
computed from the counter as left by the previous exits. -/
def run_delays (c : Nat) : List Int → List Nat
  | [] => []
  | rc :: rest => retry_delay c :: run_delays (update_failures c rc) rest

/-! ## Day/night classification (recording_scheduler.py, _is_night_time lines 78-131)

`_get_sun_times` (lines 25-76) produces, for the current calendar day, the
local-time instants below; the classification then compares "now" against
them.  The sun instants themselves come from the external `suntime` library
and are therefore inputs of the embedding. -/

/-- The four boundary instants returned by `_get_sun_times` (lines 68-73). -/
structure SunTimes where
  sunrise_today : Int
  sunset_today : Int
  sunset_yesterday : Int
  sunrise_tomorrow : Int
deriving Repr, DecidableEq

/-- The function `_is_night_time` success path, lines 93-126: returns
(is_night, next sunrise boundary, last sunset boundary).
Case 1 (line 95): before today's sunrise → night, window yesterday's
sunset → today's sunrise (the branch returns `True` unconditionally).
Case 2 (line 110): at/after today's sunset → night, window today's
sunset → tomorrow's sunrise.  Case 3: daytime. -/
def is_night_time (now_local : Int) (st : SunTimes) : Bool × Option Int × Option Int :=
  if now_local < st.sunrise_today then
    (true, some st.sunrise_today, some st.sunset_yesterday)
  else if st.sunset_today ≤ now_local then
    (true, some st.sunrise_tomorrow, some st.sunset_today)
  else
    (false, some st.sunrise_today, some st.sunset_today)

/-! ## Scheduler tick (recording_scheduler.py, _schedule_checker lines 153-219) -/

/-- How the per-camera day/night computation can turn out:
`ok` carries the sun times, `sunError` is the `SunTimeException` caught
inside `_is_night_time` (lines 128-131), `unexpectedError` is any other
exception, which propagates to the tick's try/except (lines 212-216). -/
inductive SunComputation where
  | ok (st : SunTimes) : SunComputation
  | sunError : SunComputation
  | unexpectedError : SunComputation
deriving Repr, DecidableEq

/-- A supervisor call the tick can issue for a camera. -/
inductive SchedAction where
  | start : SchedAction
  | stop : SchedAction
deriving Repr, DecidableEq

/-- The function `_is_night_time` including its exception behaviour: `SunTimeException`
is caught and yields `(False, None, None)` (lines 128-131); any other
exception escapes (`none` here). -/
def is_night_time_checked (now_local : Int) :
    SunComputation → Option (Bool × Option Int × Option Int)
  | SunComputation.ok st => some (is_night_time now_local st)
  | SunComputation.sunError => some (false, none, none)
  | SunComputation.unexpectedError => none

/-- The supervisor call the tick makes for one camera (lines 185-216):
an escaping exception is caught by the tick's own try/except and produces
no call; otherwise night ∧ not recording → start, day ∧ recording → stop. -/
def tick_camera_action (now_local : Int) (sun : SunComputation)
    (is_recording : Bool) : Option SchedAction :=
  match is_night_time_checked now_local sun with
  | none => none
  | some (is_night, _, _) =>
    if is_night && !is_recording then some SchedAction.start
    else if !is_night && is_recording then some SchedAction.stop
    else none

/-- One tick over the camera list (lines 156-216): every camera is
evaluated in turn; a camera is a triple (id, day/night computation
outcome, currently-recording flag). -/
def tick_actions (now_local : Int) (cams : List (String × SunComputation × Bool)) :
    List (String × Option SchedAction) :=
  cams.map (fun c => (c.1, tick_camera_action now_local c.2.1 c.2.2))

/-! ## Recorder registry state (recorder.py, class Recorder)

Python dicts become association lists; `threading.Event` becomes a `Bool`
(set or not); process and thread handles become `Nat` identifiers. -/

/-- Association-list update, the semantics of Python `d[k] = v`. -/
def dict_insert {β : Type} (k : String) (v : β) :
    List (String × β) → List (String × β)
  | [] => [(k, v)]
  | (k', v') :: rest =>
    if k = k' then (k, v) :: rest else (k', v') :: dict_insert k v rest

/-- Association-list removal, the semantics of Python `del d[k]`. -/
def dict_erase {β : Type} (k : String) :
    List (String × β) → List (String × β)
  | [] => []
  | (k', v') :: rest =>
    if k = k' then rest else (k', v') :: dict_erase k rest

/-- A configured camera (the fields of cameras.json the supervisor reads). -/
structure CameraConfig where
  name : String
  rtsp_url : String
deriving Repr, DecidableEq

/-- RecordingStats dataclass (recorder.py lines 39-51). -/
structure RecordingStats where
  camera_id : String
  started_at : Int
  encoding_preset : String
  quality : String
  segments_created : Nat
  total_bytes_written : Nat
  errors_count : Nat
  last_error : Option String
  last_segment_time : Option Int
  restarts_count : Nat
deriving Repr, DecidableEq

/-- The mutable registry state of a `Recorder` (recorder.py lines 56-63). -/
structure RecorderState where
  recording_processes : List (String × Nat)
  recording_threads : List (String × Nat)
  recording_stats : List (String × RecordingStats)
  stop_flags : List (String × Bool)
  cameras : List (String × CameraConfig)
deriving Repr, DecidableEq

/-- A freshly initialised RecordingStats, as built at the top of
`record_rtsp_stream` (recorder.py lines 291-296, dataclass defaults). -/
def fresh_stats (camera_id : String) (started_at : Int)
    (preset quality : String) : RecordingStats :=
  { camera_id := camera_id, started_at := started_at,
    encoding_preset := preset, quality := quality,
    segments_created := 0, total_bytes_written := 0, errors_count := 0,
    last_error := none, last_segment_time := none, restarts_count := 0 }

/-- The spawned recorder thread's stats initialisation,
`self.recording_stats[camera_id] = stats` (recorder.py line 297). -/
def run_init_stats (s : RecorderState) (camera_id : String) (started_at : Int)
    (preset quality : String) : RecorderState :=
  let st := fresh_stats camera_id started_at preset quality
  { s with recording_stats := dict_insert camera_id st s.recording_stats }

/-- The spawned recorder thread registering its encoder process under the
registry mutex, `self.recording_processes[camera_id] = process`
(recorder.py lines 385-386). -/
def run_register_process (s : RecorderState) (camera_id : String)
    (proc : Nat) : RecorderState :=
  { s with recording_processes :=
      dict_insert camera_id proc s.recording_processes }

/-- The function `start_recording` (recorder.py lines 496-578) with the default
`verify_stream=False`: first locked block checks for a live job, a known
camera and a non-empty stream URL (lines 518-530, all reads); second
locked block re-checks the registry (lines 541-545), then creates the stop
event and registers and starts the supervising thread (lines 554-578).
`new_thread` is the identifier of the thread that would be spawned. -/
def start_recording (s : RecorderState) (camera_id : String)
    (new_thread : Nat) : Bool × RecorderState :=
  if (s.recording_processes.lookup camera_id).isSome then (false, s)
  else
    match s.cameras.lookup camera_id with
    | none => (false, s)
    | some cam =>
      if cam.rtsp_url = "" then (false, s)
      else if (s.recording_processes.lookup camera_id).isSome then (false, s)
      else
        (true,
          { s with
            stop_flags := dict_insert camera_id false s.stop_flags,
            recording_threads :=
              dict_insert camera_id new_thread s.recording_threads })

/-- First step of `stop_recording` (recorder.py lines 583-584): set the
camera's stop flag when one exists.  This runs before the live-job check. -/
def stop_set_flag (s : RecorderState) (camera_id : String) : RecorderState :=
  if (s.stop_flags.lookup camera_id).isSome then
    { s with stop_flags := dict_insert camera_id true s.stop_flags }
  else s

/-- Cleanup phase of a successful `stop_recording` (recorder.py lines
595-605): remove the thread, process and stop-flag entries, each guarded
by its own membership check. -/
def stop_cleanup (s : RecorderState) (camera_id : String) : RecorderState :=
  let s2 :=
    if (s.recording_threads.lookup camera_id).isSome then
      { s with recording_threads := dict_erase camera_id s.recording_threads }
    else s
  let s3 :=
    if (s2.recording_processes.lookup camera_id).isSome then
      { s2 with recording_processes := dict_erase camera_id s2.recording_processes }
    else s2
  if (s3.stop_flags.lookup camera_id).isSome then
    { s3 with stop_flags := dict_erase camera_id s3.stop_flags }
  else s3

/-- The function `stop_recording` (recorder.py lines 580-608): first sets the camera's
stop flag when one exists (lines 583-584), then under the lock fails if no
live process is registered (lines 586-589); otherwise stops the process
and removes the thread, process and stop-flag entries (lines 593-608). -/
def stop_recording (s : RecorderState) (camera_id : String) :
    Bool × RecorderState :=
  let s1 := stop_set_flag s camera_id
  if (s1.recording_processes.lookup camera_id).isNone then (false, s1)
  else (true, stop_cleanup s1 camera_id)

/-- The per-camera statistics view `get_recording_stats` returns
(recorder.py lines 675-690). -/
structure StatsView where
  camera_id : String
  started_at : Int
  encoding_preset : String
  quality : String
  segments_created : Nat
  total_bytes_written : Nat
  errors_count : Nat
  last_error : Option String
  restarts_count : Nat
  uptime_seconds : Int
deriving Repr, DecidableEq

/-- Rendering of one RecordingStats record, recorder.py lines 678-689;
`uptime_seconds` is measured from the stored `started_at`. -/
def stats_view (st : RecordingStats) (now : Int) : StatsView :=
  { camera_id := st.camera_id, started_at := st.started_at,
    encoding_preset := st.encoding_preset, quality := st.quality,
    segments_created := st.segments_created,
    total_bytes_written := st.total_bytes_written,
    errors_count := st.errors_count, last_error := st.last_error,
    restarts_count := st.restarts_count,
    uptime_seconds := now - st.started_at }

/-- The method `get_recording_stats(camera_id)` (recorder.py lines 673-690);
an absent entry yields the empty dict, modelled as `none`. -/
def get_recording_stats (s : RecorderState) (camera_id : String)
    (now : Int) : Option StatsView :=
  (s.recording_stats.lookup camera_id).map (fun st => stats_view st now)

/-! ## Interleaving model for concurrent supervisor calls

A `start_recording` call executes its locked sections, but the process is
entered into `recording_processes` only later, by the spawned thread
(recorder.py lines 385-386).  A trace is a list of atomic events, each
holding the registry mutex. -/

/-- Atomic registry events: a full `start_recording` call, or the spawned
thread's stats initialisation plus process registration. -/
inductive RecEvent where
  | startCall (camera_id : String) (thread : Nat) : RecEvent
  | threadBody (camera_id : String) (started_at : Int) (proc : Nat) : RecEvent
deriving Repr, DecidableEq

/-- Effect of one event; `startCall` yields its boolean result. -/
def step_event (s : RecorderState) : RecEvent → Option Bool × RecorderState
  | RecEvent.startCall cam t =>
    let r := start_recording s cam t
    (some r.1, r.2)
  | RecEvent.threadBody cam t0 p =>
    (none, run_register_process (run_init_stats s cam t0 "copy" "HIGH") cam p)

/-- Run a trace of events, collecting each event's result. -/
def run_trace (s : RecorderState) : List RecEvent → List (Option Bool) × RecorderState
  | [] => ([], s)
  | e :: rest =>
    let r := step_event s e
    let q := run_trace r.2 rest
    (r.1 :: q.1, q.2)

/-! ## Storage reclaimer (storage.py)

A file carries the data the reclaimer inspects.  `parsed_date` is the
result of `parse_filename_date` (storage.py lines 103-113, `strptime` over
`<camera>_<YYYY-MM-DD>_<HH-MM-SS>_<NNN>.mp4`; `none` when the name cannot
be parsed); `mtime` is the stat fallback; `unlink_ok` is whether the OS
unlink call succeeds (`False` models a per-file removal error). -/

/-- One on-disk file inside a camera directory. -/
structure StoredFile where
  name : String
  parsed_date : Option Int
  mtime : Int
  size : Nat
  is_file : Bool
  unlink_ok : Bool
deriving Repr, DecidableEq

/-- One per-camera directory under the output root. -/
structure CameraDir where
  name : String
  files : List StoredFile
deriving Repr, DecidableEq

/-- Effective timestamp of a file: parsed filename date, falling back to
modification time only when parsing failed (storage.py lines 139-144). -/
def file_date (f : StoredFile) : Int :=
  match f.parsed_date with
  | some d => d
  | none => f.mtime

/-- Aggregate result of a retention sweep (storage.py lines 163-168). -/
structure SweepResult where
  removed_count : Nat
  size_freed : Nat
  errors : List String
deriving Repr, DecidableEq

/-- Per-file loop of `clear_old_recordings` over one camera directory
(storage.py lines 132-155): the sidecar log and non-files are skipped; a
file dated strictly before the cutoff is unlinked, a failed unlink is
recorded as a per-file error and the sweep continues.  Returns the sweep
counters and the files remaining on disk. -/
def clear_old_files (cutoff : Int) : List StoredFile → SweepResult × List StoredFile
  | [] => ({ removed_count := 0, size_freed := 0, errors := [] }, [])
  | f :: rest =>
    let r := clear_old_files cutoff rest
    if f.name = "ffmpeg_log.txt" then (r.1, f :: r.2)
    else if !f.is_file then (r.1, f :: r.2)
    else if file_date f < cutoff then
      if f.unlink_ok then
        ({ r.1 with removed_count := r.1.removed_count + 1,
                    size_freed := r.1.size_freed + f.size }, r.2)
      else
        ({ r.1 with errors := ("Failed to remove " ++ f.name) :: r.1.errors },
         f :: r.2)
    else (r.1, f :: r.2)

/-- Directory loop of `clear_old_recordings` (storage.py lines 128-155). -/
def clear_old_dirs (cutoff : Int) : List CameraDir → SweepResult × List CameraDir
  | [] => ({ removed_count := 0, size_freed := 0, errors := [] }, [])
  | d :: rest =>
    let r1 := clear_old_files cutoff d.files
    let r2 := clear_old_dirs cutoff rest
    ({ removed_count := r1.1.removed_count + r2.1.removed_count,
       size_freed := r1.1.size_freed + r2.1.size_freed,
       errors := r1.1.errors ++ r2.1.errors },
     { name := d.name, files := r1.2 } :: r2.2)

/-- The method `clear_old_recordings(days)` (storage.py lines 115-168): the cutoff is
`now - timedelta(days=days)`, i.e. `now - 86400 * days` seconds. -/
def clear_old_recordings (now : Int) (days : Nat) (dirs : List CameraDir) :
    SweepResult × List CameraDir :=
  clear_old_dirs (now - 86400 * days) dirs

/-- Specification-side predicate: the files the retention sweep actually
unlinks (a recording file strictly older than the cutoff whose removal
succeeds). -/
def sweep_removable (cutoff : Int) (f : StoredFile) : Bool :=
  (!(f.name == "ffmpeg_log.txt")) && f.is_file
    && decide (file_date f < cutoff) && f.unlink_ok

/-- Specification-side predicate: the files whose removal is attempted and
fails, producing one collected error each. -/
def sweep_failing (cutoff : Int) (f : StoredFile) : Bool :=
  (!(f.name == "ffmpeg_log.txt")) && f.is_file
    && decide (file_date f < cutoff) && !f.unlink_ok

/-- Specification-side: a camera directory with only the files the
retention sweep keeps. -/
def keep_files (cutoff : Int) (d : CameraDir) : CameraDir :=
  { name := d.name,
    files := d.files.filter (fun f => !(sweep_removable cutoff f)) }

/-- Total size of the output tree, `_calculate_directory_size`
(storage.py lines 48-61): every file counts, sidecar logs included. -/
def directory_size (dirs : List CameraDir) : Nat :=
  (dirs.map (fun d => (d.files.map (fun f => f.size)).sum)).sum

/-- The files the quota eviction collects into `all_files`
(storage.py lines 188-200): regular files other than the sidecar log. -/
def is_recording_file (f : StoredFile) : Bool :=
  (!(f.name == "ffmpeg_log.txt")) && f.is_file

/-- All recording files of the tree, in directory order. -/
def recording_files (dirs : List CameraDir) : List StoredFile :=
  dirs.foldr (fun d acc => d.files.filter is_recording_file ++ acc) []

/-- Oldest-first order used by the eviction sort (storage.py line 203). -/
def date_le (a b : StoredFile) : Prop := file_date a ≤ file_date b

instance : DecidableRel date_le :=
  fun a b => inferInstanceAs (Decidable (file_date a ≤ file_date b))

/-- Result of a quota eviction: the reported counters, the code's tracked
`current_size` after the loop, and the recording files left on disk. -/
structure EvictResult where
  removed_count : Nat
  size_freed : Nat
  final_size : Nat
  survivors : List StoredFile
deriving Repr, DecidableEq

/-- Deletion loop of `clear_by_storage_limit` (storage.py lines 208-219):
stop as soon as the tracked size is at or below the target; a failed
unlink is logged and skipped without updating the tracked size. -/
def evict_oldest (target : Nat) : Nat → List StoredFile → EvictResult
  | current, [] =>
    { removed_count := 0, size_freed := 0, final_size := current, survivors := [] }
  | current, f :: rest =>
    if current ≤ target then
      { removed_count := 0, size_freed := 0, final_size := current,
        survivors := f :: rest }
    else if f.unlink_ok then
      let r := evict_oldest target (current - f.size) rest
      { r with removed_count := r.removed_count + 1,
               size_freed := r.size_freed + f.size }
    else
      let r := evict_oldest target current rest
      { r with survivors := f :: r.survivors }

/-- The function `clear_by_storage_limit` (storage.py lines 170-227).  The quota is
`max_storage_gb * 2^30` bytes; `target_size = int(max_storage * 0.8)` is
modelled as exact floor `max_storage * 4 / 5` and the warning-threshold
guard `current_size <= max_storage * 0.9` as `10 * current ≤ 9 * max`
(exact rational thresholds in place of the source's float arithmetic). -/
def clear_by_storage_limit (max_storage_gb : Nat) (dirs : List CameraDir) :
    EvictResult :=
  let max_storage := max_storage_gb * 1073741824
  let target_size := max_storage * 4 / 5
  let current_size := directory_size dirs
  if current_size * 10 ≤ max_storage * 9 then
    { removed_count := 0, size_freed := 0, final_size := current_size,
      survivors := recording_files dirs }
  else
    evict_oldest target_size current_size
      (List.insertionSort date_le (recording_files dirs))

/-- Per-file loop of `clear_all_recordings` (storage.py lines 234-243):
every file found by the walk is unlinked — there is no sidecar exclusion;
removal errors are logged and skipped. -/
def clear_all_files : List StoredFile → Nat × Nat × List StoredFile
  | [] => (0, 0, [])
  | f :: rest =>
    let r := clear_all_files rest
    if f.unlink_ok then (r.1 + 1, r.2.1 + f.size, r.2.2)
    else (r.1, r.2.1, f :: r.2.2)

/-- Directory walk of `clear_all_recordings` (storage.py lines 229-251). -/
def clear_all_dirs : List CameraDir → Nat × Nat × List CameraDir
  | [] => (0, 0, [])
  | d :: rest =>
    let r1 := clear_all_files d.files
    let r2 := clear_all_dirs rest
    (r1.1 + r2.1, r1.2.1 + r2.2.1,
     { name := d.name, files := r1.2.2 } :: r2.2.2)

/-- The method `clear_all_recordings()` (storage.py lines 229-251): removes every
file under the output root, returning count and bytes freed. -/
def clear_all_recordings (dirs : List CameraDir) : Nat × Nat × List CameraDir :=
  clear_all_dirs dirs

/-! ## Concrete states and trees used by witnesses and counterexamples -/

/-- A configured demo camera with a stream URL. -/
def demo_cam : CameraConfig := ⟨"Front door", "rtsp://example.local/stream1"⟩

/-- Supervisor state with one configured camera and nothing running. -/
def rec_state0 : RecorderState :=
  { recording_processes := [], recording_threads := [], recording_stats := [],
    stop_flags := [], cameras := [("cam1", demo_cam)] }

/-- Supervisor state right after `start_recording` returned true but before
the spawned thread registered its encoder process: the stop flag and the
thread exist, the process registry entry does not. -/
def pending_state : RecorderState :=
  { recording_processes := [], recording_threads := [("cam1", 1)],
    recording_stats := [], stop_flags := [("cam1", false)],
    cameras := [("cam1", demo_cam)] }

/-- Supervisor state with a fully live job for cam1. -/
def live_state : RecorderState :=
  { recording_processes := [("cam1", 42)], recording_threads := [("cam1", 7)],
    recording_stats := [("cam1", fresh_stats "cam1" 1000 "copy" "HIGH")],
    stop_flags := [("cam1", false)], cameras := [("cam1", demo_cam)] }

/-- Concrete sun times (minutes): sunrise 420, sunset 1180, yesterday's
sunset -260, tomorrow's sunrise 1860. -/
def sun0 : SunTimes := ⟨420, 1180, -260, 1860⟩

/-- A sidecar log file that the OS would happily unlink. -/
def sidecar_file : StoredFile :=
  { name := "ffmpeg_log.txt", parsed_date := none, mtime := 0, size := 2048,
    is_file := true, unlink_ok := true }

/-- An old recording segment. -/
def old_recording : StoredFile :=
  { name := "cam1_2020-01-01_00-00-00_000.mp4", parsed_date := some 1577836800,
    mtime := 1577836800, size := 1000000, is_file := true, unlink_ok := true }

/-- A camera directory holding the sidecar log and one old recording. -/
def sidecar_tree : List CameraDir :=
  [{ name := "cam1", files := [sidecar_file, old_recording] }]

/-- A tree whose whole size (one full gigabyte) is the sidecar log: above
the 90% warning threshold of a 1 GB quota, yet nothing is evictable. -/
def big_sidecar_tree : List CameraDir :=
  [{ name := "cam1",
     files := [{ name := "ffmpeg_log.txt", parsed_date := none, mtime := 0,
                 size := 1073741824, is_file := true, unlink_ok := true }] }]

/-- Two 600 MiB recordings under a 1 GB quota: usage 1200 MiB is above the
90% threshold, and removing the older one reaches the 80% target. -/
def two_file_tree : List CameraDir :=
  [{ name := "cam1",
     files := [{ name := "cam1_2024-01-01_00-00-00_000.mp4",
                 parsed_date := some 1704067200, mtime := 1704067200,
                 size := 629145600, is_file := true, unlink_ok := true },
               { name := "cam1_2024-01-02_00-00-00_000.mp4",
                 parsed_date := some 1704153600, mtime := 1704153600,
                 size := 629145600, is_file := true, unlink_ok := true }] }]

/-- A small tree well under the quota threshold. -/
def small_tree : List CameraDir :=
  [{ name := "cam1",
     files := [{ name := "cam1_2024-01-01_00-00-00_000.mp4",
                 parsed_date := some 1704067200, mtime := 1704067200,
                 size := 1000, is_file := true, unlink_ok := true }] }]

/-! ## Helper lemmas -/

theorem lookup_dict_insert_self {β : Type} (k : String) (v : β)
    (l : List (String × β)) : (dict_insert k v l).lookup k = some v := by
  induction l with
  | nil => simp [dict_insert, List.lookup]
  | cons hd tl ih =>
    obtain ⟨k', v'⟩ := hd
    by_cases hk : k = k'
    · simp [dict_insert, hk, List.lookup]
    · have hbeq : (k == k') = false := beq_eq_false_iff_ne.mpr hk
      simp [dict_insert, hk, List.lookup, hbeq, ih]

theorem stop_set_flag_processes (s : RecorderState) (cam : String) :
    (stop_set_flag s cam).recording_processes = s.recording_processes := by
  unfold stop_set_flag
  split <;> rfl

theorem stop_set_flag_threads (s : RecorderState) (cam : String) :
    (stop_set_flag s cam).recording_threads = s.recording_threads := by
  unfold stop_set_flag
  split <;> rfl

theorem stop_set_flag_stats (s : RecorderState) (cam : String) :
    (stop_set_flag s cam).recording_stats = s.recording_stats := by
  unfold stop_set_flag
  split <;> rfl

theorem stop_set_flag_cameras (s : RecorderState) (cam : String) :
    (stop_set_flag s cam).cameras = s.cameras := by
  unfold stop_set_flag
  split <;> rfl

theorem stop_set_flag_flags (s : RecorderState) (cam : String) :
    (stop_set_flag s cam).stop_flags =
      (if (s.stop_flags.lookup cam).isSome then dict_insert cam true s.stop_flags
       else s.stop_flags) := by
  unfold stop_set_flag
  split <;> simp_all

theorem stop_cleanup_stats (s : RecorderState) (cam : String) :
    (stop_cleanup s cam).recording_stats = s.recording_stats := by
  simp only [stop_cleanup]
  split <;> split <;> split <;> rfl

theorem stop_recording_fail (s : RecorderState) (cam : String)
    (h : s.recording_processes.lookup cam = none) :
    stop_recording s cam = (false, stop_set_flag s cam) := by
  simp only [stop_recording, stop_set_flag_processes, h]
  rfl

theorem stop_recording_live (s : RecorderState) (cam : String)
    (h : (s.recording_processes.lookup cam).isSome) :
    stop_recording s cam = (true, stop_cleanup (stop_set_flag s cam) cam) := by
  obtain ⟨v, hv⟩ := Option.isSome_iff_exists.mp h
  simp only [stop_recording, stop_set_flag_processes, hv]
  rfl

theorem retry_delay_le_300 (f : Nat) : retry_delay f ≤ 300 := by
  unfold retry_delay FFMPEG_MAX_FAILURES FFMPEG_RECONNECT_DELAY
  split
  · exact Nat.min_le_right _ _
  · omega

theorem retry_delay_mono (f : Nat) : retry_delay f ≤ retry_delay (f + 1) := by
  unfold retry_delay FFMPEG_MAX_FAILURES FFMPEG_RECONNECT_DELAY
  by_cases h5 : 5 ≤ f
  · rw [if_pos h5, if_pos (by omega)]
    have hm : min f 6 ≤ min (f + 1) 6 := by omega
    have hp : 2 ^ min f 6 ≤ 2 ^ min (f + 1) 6 :=
      Nat.pow_le_pow_right (by omega) hm
    exact min_le_min (Nat.mul_le_mul_left 5 hp) le_rfl
  · rw [if_neg (by omega)]
    split
    · refine le_min ?_ (by omega)
      have h32 : (32 : Nat) ≤ 2 ^ min (f + 1) 6 := by
        have : 5 ≤ min (f + 1) 6 := by omega
        calc (32 : Nat) = 2 ^ 5 := rfl
          _ ≤ 2 ^ min (f + 1) 6 := Nat.pow_le_pow_right (by omega) this
      omega
    · exact le_rfl

theorem run_delays_chain (codes : List Int) (h : ∀ rc ∈ codes, rc ≠ 0) :
    ∀ c : Nat, List.Chain' (· ≤ ·) (run_delays c codes) := by
  induction codes with
  | nil => intro c; simp [run_delays]
  | cons rc rest ih =>
    intro c
    have hrc : rc ≠ 0 := h rc (by simp)
    have hrest : ∀ x ∈ rest, x ≠ 0 := fun x hx => h x (by simp [hx])
    cases rest with
    | nil => simp [run_delays]
    | cons rc2 rest2 =>
      have htail := ih hrest (c + 1)
      have hupd : update_failures c rc = c + 1 := by
        simp [update_failures, hrc]
      simp only [run_delays, hupd] at htail ⊢
      exact List.Chain'.cons (retry_delay_mono c) htail

/-! ## C1: exponential-backoff retry delay -/

/-- C1: for every supervised recording run, the retry delay before relaunch
equals the base delay (5s) while the consecutive-failure counter is below
the threshold (5), and equals `min(5 * 2^min(failures, 6), 300)` once the
counter is at or above the threshold; over consecutive non-zero exits the
waited delays are non-decreasing and never exceed 300 seconds, and a clean
exit (code 0) resets the consecutive-failure counter to 0. -/
theorem backoff_retry_delay_spec :
    (∀ f : Nat, f < FFMPEG_MAX_FAILURES → retry_delay f = FFMPEG_RECONNECT_DELAY)
    ∧ (∀ f : Nat, FFMPEG_MAX_FAILURES ≤ f →
        retry_delay f = min (FFMPEG_RECONNECT_DELAY * 2 ^ min f 6) 300)
    ∧ (∀ f : Nat, retry_delay f ≤ 300)
    ∧ (∀ codes : List Int, (∀ rc ∈ codes, rc ≠ 0) →
        List.Chain' (· ≤ ·) (run_delays 0 codes))
    ∧ (∀ f : Nat, update_failures f 0 = 0) := by
  refine ⟨?_, ?_, retry_delay_le_300, ?_, ?_⟩
  · intro f hf
    unfold retry_delay
    rw [if_neg (by omega)]
  · intro f hf
    unfold retry_delay
    rw [if_pos hf]
  · intro codes h
    exact run_delays_chain codes h 0
  · intro f
    simp [update_failures]

/-- C1 witness: the backoff specification evaluated at concrete failure
counts and a concrete run of non-zero exit codes. -/
theorem backoff_retry_delay_spec_witness :
    retry_delay 3 = FFMPEG_RECONNECT_DELAY
    ∧ retry_delay 7 = min (FFMPEG_RECONNECT_DELAY * 2 ^ min 7 6) 300
    ∧ List.Chain' (· ≤ ·) (run_delays 0 [8, 1, 8, 1, 1, 1, 1])
    ∧ update_failures 4 0 = 0 :=
  ⟨backoff_retry_delay_spec.1 3 (by decide),
   backoff_retry_delay_spec.2.1 7 (by decide),
   backoff_retry_delay_spec.2.2.2.1 [8, 1, 8, 1, 1, 1, 1] (by decide),
   backoff_retry_delay_spec.2.2.2.2 4⟩

/-! ## C2: day/night classification -/

/-- C2: the scheduler's classification returns night for every time before
today's sunrise, with the yesterday's-sunset → today's-sunrise window;
returns night for every time at or after today's sunset, with the
today's-sunset → tomorrow's-sunrise window; and returns day otherwise.
In particular one minute after sunset is night, one minute before sunrise
is night, and one minute after sunrise (when still before sunset) is day. -/
theorem night_time_classification (st : SunTimes) :
    (∀ now : Int, now < st.sunrise_today →
      is_night_time now st = (true, some st.sunrise_today, some st.sunset_yesterday))
    ∧ (∀ now : Int, st.sunset_today ≤ now →
      (is_night_time now st).1 = true
      ∧ (st.sunrise_today ≤ now →
          is_night_time now st = (true, some st.sunrise_tomorrow, some st.sunset_today)))
    ∧ (∀ now : Int, st.sunrise_today ≤ now → now < st.sunset_today →
      is_night_time now st = (false, some st.sunrise_today, some st.sunset_today))
    ∧ (is_night_time (st.sunset_today + 1) st).1 = true
    ∧ (is_night_time (st.sunrise_today - 1) st).1 = true
    ∧ (st.sunrise_today + 1 < st.sunset_today →
        (is_night_time (st.sunrise_today + 1) st).1 = false) := by
  refine ⟨?_, ?_, ?_, ?_, ?_, ?_⟩
  · intro now h
    simp only [is_night_time, if_pos h]
  · intro now h
    constructor
    · unfold is_night_time
      split
      · rfl
      · simp [h]
    · intro h2
      simp only [is_night_time, if_neg (by omega : ¬ now < st.sunrise_today), if_pos h]
  · intro now h1 h2
    simp only [is_night_time, if_neg (by omega : ¬ now < st.sunrise_today),
      if_neg (by omega : ¬ st.sunset_today ≤ now)]
  · unfold is_night_time
    split
    · rfl
    · split
      · rfl
      · omega
  · unfold is_night_time
    rw [if_pos (by omega)]
  · intro h
    simp only [is_night_time, if_neg (by omega : ¬ st.sunrise_today + 1 < st.sunrise_today),
      if_neg (by omega : ¬ st.sunset_today ≤ st.sunrise_today + 1)]

/-- C2 witness: the classification evaluated at concrete sun times
(sunrise 420, sunset 1180): 100 is night with the yesterday window, 1200
is night, 800 is day, and sunrise + 1 with sunrise + 1 < sunset is day. -/
theorem night_time_classification_witness :
    is_night_time 100 sun0 = (true, some sun0.sunrise_today, some sun0.sunset_yesterday)
    ∧ (is_night_time 1200 sun0).1 = true
    ∧ is_night_time 800 sun0 = (false, some sun0.sunrise_today, some sun0.sunset_today)
    ∧ (is_night_time (sun0.sunrise_today + 1) sun0).1 = false :=
  ⟨(night_time_classification sun0).1 100 (by decide),
   ((night_time_classification sun0).2.1 1200 (by decide)).1,
   (night_time_classification sun0).2.2.1 800 (by decide) (by decide),
   (night_time_classification sun0).2.2.2.2.2 (by decide)⟩

/-! ## C3: start guards -/

/-- C3: `start_recording` returns false and changes no supervisor state
when the camera already has a live job (the existing job and all counters
are left untouched), when the camera id is unknown, and when the camera
has no stream URL; in all other cases it returns true with the stop flag
created and the supervised thread registered. -/
theorem start_recording_guards (s : RecorderState) (cam : String) (t : Nat) :
    ((s.recording_processes.lookup cam).isSome → start_recording s cam t = (false, s))
    ∧ (s.cameras.lookup cam = none → start_recording s cam t = (false, s))
    ∧ (∀ c, s.cameras.lookup cam = some c → c.rtsp_url = "" →
        start_recording s cam t = (false, s))
    ∧ (∀ c, s.recording_processes.lookup cam = none →
        s.cameras.lookup cam = some c → c.rtsp_url ≠ "" →
        start_recording s cam t =
          (true, { s with
                    stop_flags := dict_insert cam false s.stop_flags,
                    recording_threads := dict_insert cam t s.recording_threads })) := by
  refine ⟨?_, ?_, ?_, ?_⟩
  · intro h
    unfold start_recording
    rw [if_pos h]
  · intro h
    unfold start_recording
    split
    · rfl
    · rw [h]
  · intro c hc hurl
    unfold start_recording
    split
    · rfl
    · rw [hc]
      simp [hurl]
  · intro c hp hc hurl
    unfold start_recording
    rw [hp, hc]
    simp [hurl]

/-- C3 witness: a start on an unknown camera fails without touching the
state, and a start on a configured idle camera succeeds. -/
theorem start_recording_guards_witness :
    start_recording rec_state0 "ghost" 1 = (false, rec_state0)
    ∧ start_recording rec_state0 "cam1" 1 =
        (true, { rec_state0 with
                  stop_flags := dict_insert "cam1" false rec_state0.stop_flags,
                  recording_threads :=
                    dict_insert "cam1" 1 rec_state0.recording_threads }) :=
  ⟨(start_recording_guards rec_state0 "ghost" 1).2.1 rfl,
   (start_recording_guards rec_state0 "cam1" 1).2.2.2 demo_cam rfl rfl (by decide)⟩

/-! ## C4: stop on a camera with no live job -/

/-- C4 counterexample: with a start issued but the spawned thread not yet
having registered its encoder process, the camera has no live job, yet
`stop_recording` returns false AND mutates the state — it sets the
camera's stop flag (recorder.py lines 583-584 run before the live-job
check of lines 586-589), so the failed call is not side-effect free. -/
theorem stop_recording_side_effect :
    (stop_recording pending_state "cam1").1 = false
    ∧ (stop_recording pending_state "cam1").2 ≠ pending_state := by
  constructor
  · decide
  · decide

/-- C4 (amended): `stop_recording` on a camera with no live job returns
false and leaves the process registry, threads, statistics and camera
configuration untouched; the stop-flag table is also untouched except
that an existing stop flag for that camera is set. -/
theorem stop_recording_no_live_job (s : RecorderState) (cam : String)
    (h : s.recording_processes.lookup cam = none) :
    (stop_recording s cam).1 = false
    ∧ (stop_recording s cam).2.recording_processes = s.recording_processes
    ∧ (stop_recording s cam).2.recording_threads = s.recording_threads
    ∧ (stop_recording s cam).2.recording_stats = s.recording_stats
    ∧ (stop_recording s cam).2.cameras = s.cameras
    ∧ (stop_recording s cam).2.stop_flags =
        (if (s.stop_flags.lookup cam).isSome then dict_insert cam true s.stop_flags
         else s.stop_flags) := by
  rw [stop_recording_fail s cam h]
  exact ⟨rfl, stop_set_flag_processes s cam, stop_set_flag_threads s cam,
    stop_set_flag_stats s cam, stop_set_flag_cameras s cam,
    stop_set_flag_flags s cam⟩

/-- C4 witness: the amended statement evaluated on a state with one
configured camera and no live job (and no stop flag). -/
theorem stop_recording_no_live_job_witness :
    (stop_recording rec_state0 "cam1").1 = false
    ∧ (stop_recording rec_state0 "cam1").2.stop_flags =
        (if (rec_state0.stop_flags.lookup "cam1").isSome
         then dict_insert "cam1" true rec_state0.stop_flags
         else rec_state0.stop_flags) :=
  ⟨(stop_recording_no_live_job rec_state0 "cam1" rfl).1,
   (stop_recording_no_live_job rec_state0 "cam1" rfl).2.2.2.2.2⟩

/-! ## C5: age-based retention sweep -/

theorem clear_old_files_spec (cutoff : Int) (files : List StoredFile) :
    (clear_old_files cutoff files).2
        = files.filter (fun f => !(sweep_removable cutoff f))
    ∧ (clear_old_files cutoff files).1.removed_count
        = files.countP (sweep_removable cutoff)
    ∧ (clear_old_files cutoff files).1.size_freed
        = ((files.filter (sweep_removable cutoff)).map (fun f => f.size)).sum
    ∧ (clear_old_files cutoff files).1.errors.length
        = files.countP (sweep_failing cutoff) := by
  induction files with
  | nil => simp [clear_old_files, SweepResult.mk.injEq]
  | cons f rest ih =>
    obtain ⟨ih1, ih2, ih3, ih4⟩ := ih
    refine ⟨?_, ?_, ?_, ?_⟩
    all_goals
      by_cases h1 : f.name = "ffmpeg_log.txt" <;>
      by_cases h2 : f.is_file <;>
      by_cases h3 : file_date f < cutoff <;>
      by_cases h4 : f.unlink_ok <;>
      simp [clear_old_files, sweep_removable, sweep_failing, h1, h2, h3, h4,
            ih1, ih2, ih3, ih4, List.filter_cons, List.countP_cons] <;>
      omega

theorem clear_old_dirs_spec (cutoff : Int) (dirs : List CameraDir) :
    (clear_old_dirs cutoff dirs).2 = dirs.map (keep_files cutoff)
    ∧ (clear_old_dirs cutoff dirs).1.removed_count
        = (dirs.map (fun d => d.files.countP (sweep_removable cutoff))).sum
    ∧ (clear_old_dirs cutoff dirs).1.size_freed
        = (dirs.map (fun d =>
            ((d.files.filter (sweep_removable cutoff)).map (fun f => f.size)).sum)).sum
    ∧ (clear_old_dirs cutoff dirs).1.errors.length
        = (dirs.map (fun d => d.files.countP (sweep_failing cutoff))).sum := by
  induction dirs with
  | nil => simp [clear_old_dirs]
  | cons d rest ih =>
    obtain ⟨ih1, ih2, ih3, ih4⟩ := ih
    obtain ⟨f1, f2, f3, f4⟩ := clear_old_files_spec cutoff d.files
    simp [clear_old_dirs, keep_files, ih1, ih2, ih3, ih4, f1, f2, f3, f4]

/-- C5: for a retention window of `days` days, the sweep removes exactly
the recording files whose parsed-or-fallback timestamp is strictly older
than `now - days` (and whose removal succeeds), keeps every other file —
in particular every file dated at or after the cutoff — returns the count
of removed files and the bytes freed, and collects one error per failed
removal without aborting the sweep (every directory and file is still
processed). -/
theorem retention_sweep_spec (now : Int) (days : Nat) (dirs : List CameraDir) :
    ((clear_old_recordings now days dirs).2
        = dirs.map (keep_files (now - 86400 * days)))
    ∧ ((clear_old_recordings now days dirs).1.removed_count
        = (dirs.map (fun d =>
            d.files.countP (sweep_removable (now - 86400 * days)))).sum)
    ∧ ((clear_old_recordings now days dirs).1.size_freed
        = (dirs.map (fun d =>
            ((d.files.filter (sweep_removable (now - 86400 * days))).map
              (fun f => f.size)).sum)).sum)
    ∧ ((clear_old_recordings now days dirs).1.errors.length
        = (dirs.map (fun d =>
            d.files.countP (sweep_failing (now - 86400 * days)))).sum) :=
  clear_old_dirs_spec (now - 86400 * days) dirs

/-! ## C6: quota-based eviction -/

theorem evict_oldest_size (target : Nat) (files : List StoredFile) :
    ∀ current : Nat, (files.map (fun f => f.size)).sum ≤ current →
      (evict_oldest target current files).size_freed
        + (evict_oldest target current files).final_size = current := by
  induction files with
  | nil => intro current _; simp [evict_oldest]
  | cons f rest ih =>
    intro current h
    simp only [List.map_cons, List.sum_cons] at h
    by_cases hbreak : current ≤ target
    · simp [evict_oldest, hbreak]
    · by_cases hok : f.unlink_ok
      · have hrec := ih (current - f.size) (by omega)
        simp only [evict_oldest, if_neg hbreak, hok, if_true]
        omega
      · have hrec := ih current (by omega)
        simp only [evict_oldest, if_neg hbreak, hok, if_false, Bool.false_eq_true]
        exact hrec

theorem evict_oldest_target (target : Nat) (files : List StoredFile) :
    ∀ current : Nat,
      (evict_oldest target current files).final_size ≤ target
      ∨ ∀ f ∈ (evict_oldest target current files).survivors,
          f.unlink_ok = false := by
  induction files with
  | nil => intro current; right; simp [evict_oldest]
  | cons f rest ih =>
    intro current
    by_cases hbreak : current ≤ target
    · left
      simp [evict_oldest, hbreak]
    · by_cases hok : f.unlink_ok
      · rcases ih (current - f.size) with h | h
        · left
          simpa [evict_oldest, hbreak, hok] using h
        · right
          simpa [evict_oldest, hbreak, hok] using h
      · rcases ih current with h | h
        · left
          simpa [evict_oldest, hbreak, hok] using h
        · right
          intro g hg
          simp only [evict_oldest, if_neg hbreak, hok, if_false,
            Bool.false_eq_true, List.mem_cons] at hg
          rcases hg with hg | hg
          · subst hg
            simpa using hok
          · exact h g hg

theorem evict_oldest_suffix (target : Nat) :
    ∀ files : List StoredFile, (∀ f ∈ files, f.unlink_ok = true) →
      ∀ current : Nat,
        (evict_oldest target current files).survivors <:+ files := by
  intro files
  induction files with
  | nil => intro _ current; simp [evict_oldest]
  | cons f rest ih =>
    intro hall current
    have hf : f.unlink_ok = true := hall f (by simp)
    have hrest : ∀ g ∈ rest, g.unlink_ok = true :=
      fun g hg => hall g (by simp [hg])
    by_cases hbreak : current ≤ target
    · simp [evict_oldest, hbreak]
    · have hrec := ih hrest (current - f.size)
      simp only [evict_oldest, if_neg hbreak, hf, if_true]
      exact hrec.trans (List.suffix_cons f rest)

theorem evict_oldest_count (target : Nat) (files : List StoredFile) :
    ∀ current : Nat,
      (evict_oldest target current files).removed_count
        + (evict_oldest target current files).survivors.length
        = files.length := by
  induction files with
  | nil => intro current; simp [evict_oldest]
  | cons f rest ih =>
    intro current
    by_cases hbreak : current ≤ target
    · simp [evict_oldest, hbreak]
    · by_cases hok : f.unlink_ok
      · have hrec := ih (current - f.size)
        simp only [evict_oldest, if_neg hbreak, hok, if_true, List.length_cons]
        omega
      · have hrec := ih current
        simp only [evict_oldest, if_neg hbreak, hok, if_false,
          Bool.false_eq_true, List.length_cons]
        omega

theorem evict_oldest_take_drop (target : Nat) :
    ∀ files : List StoredFile, (∀ f ∈ files, f.unlink_ok = true) →
      ∀ current : Nat,
        (evict_oldest target current files).survivors
            = files.drop (evict_oldest target current files).removed_count
        ∧ (evict_oldest target current files).size_freed
            = ((files.take (evict_oldest target current files).removed_count).map
                (fun f => f.size)).sum
        ∧ ∀ j < (evict_oldest target current files).removed_count,
            target < current - ((files.take j).map (fun f => f.size)).sum := by
  intro files
  induction files with
  | nil =>
    intro _ current
    refine ⟨rfl, rfl, ?_⟩
    intro j hj
    simp [evict_oldest] at hj
  | cons f rest ih =>
    intro hall current
    have hf : f.unlink_ok = true := hall f (by simp)
    have hrest : ∀ g ∈ rest, g.unlink_ok = true :=
      fun g hg => hall g (by simp [hg])
    by_cases hbreak : current ≤ target
    · refine ⟨?_, ?_, ?_⟩
      · simp [evict_oldest, hbreak]
      · simp [evict_oldest, hbreak]
      · intro j hj
        simp [evict_oldest, hbreak] at hj
    · obtain ⟨ih1, ih2, ih3⟩ := ih hrest (current - f.size)
      refine ⟨?_, ?_, ?_⟩
      · simp only [evict_oldest, if_neg hbreak, hf, if_true]
        rw [ih1]
        rfl
      · simp only [evict_oldest, if_neg hbreak, hf, if_true]
        rw [ih2]
        simp only [List.take_succ_cons, List.map_cons, List.sum_cons]
        omega
      · intro j hj
        simp only [evict_oldest, if_neg hbreak, hf, if_true] at hj
        cases j with
        | zero =>
          simp only [List.take_zero, List.map_nil, List.sum_nil, Nat.sub_zero]
          omega
        | succ j' =>
          have hj' : j' < (evict_oldest target (current - f.size) rest).removed_count := by
            omega
          have hmin := ih3 j' hj'
          simp only [List.take_succ_cons, List.map_cons, List.sum_cons]
          omega

theorem recording_sizes_le (dirs : List CameraDir) :
    ((recording_files dirs).map (fun f => f.size)).sum ≤ directory_size dirs := by
  induction dirs with
  | nil => simp [recording_files, directory_size]
  | cons d rest ih =>
    have hsub : List.Sublist
        ((d.files.filter is_recording_file).map (fun f => f.size))
        (d.files.map (fun f => f.size)) :=
      (List.filter_sublist d.files).map (fun f => f.size)
    have hle := hsub.sum_le_sum (by intro a _; exact Nat.zero_le a)
    simp only [recording_files, List.foldr_cons, List.map_append, List.sum_append,
      directory_size, List.map_cons, List.sum_cons] at *
    omega

theorem sorted_sizes_eq (dirs : List CameraDir) :
    ((List.insertionSort date_le (recording_files dirs)).map (fun f => f.size)).sum
      = ((recording_files dirs).map (fun f => f.size)).sum :=
  ((List.perm_insertionSort date_le (recording_files dirs)).map (fun f => f.size)).sum_eq

/-- C6 counterexample: a tree whose full gigabyte of usage is the sidecar
log is above the 90% warning threshold of a 1 GB quota, yet quota eviction
removes zero files and the total stays above the 80% target, refuting
"above 90% implies deletion down to at most 80% of quota". -/
theorem quota_eviction_counterexample :
    1 * 1073741824 * 9 < directory_size big_sidecar_tree * 10
    ∧ (clear_by_storage_limit 1 big_sidecar_tree).removed_count = 0
    ∧ 1 * 1073741824 * 4 / 5 < (clear_by_storage_limit 1 big_sidecar_tree).final_size := by
  exact ⟨by decide, by decide, by decide⟩

/-- C6 (amended): when total directory size is at or below 90% of the
quota, eviction removes zero files and frees zero bytes; when it is above
90%, eviction walks the recording files oldest-first and stops as soon as
the total is at or below the 80% target, so afterwards either the total is
at or below the target or every surviving recording file is one whose
removal failed — when every removal succeeds the survivors are a suffix of
the oldest-first order (only oldest files are deleted); the freed bytes
plus the remaining total equal the starting total, and every recording
file is either removed or a survivor.  The final conjunct pins the
stopping behaviour: when every removal succeeds, what is removed is
exactly the `removed_count`-prefix of the oldest-first order (the freed
bytes are that prefix's bytes and the survivors are the rest), and this
prefix is minimal — for every `j` strictly below `removed_count`,
removing only the `j` oldest files would leave the total still above the
80% target, so the loop never deletes once the target is reached. -/
theorem quota_eviction_spec (gb : Nat) (dirs : List CameraDir) :
    (directory_size dirs * 10 ≤ gb * 1073741824 * 9 →
      (clear_by_storage_limit gb dirs).removed_count = 0
      ∧ (clear_by_storage_limit gb dirs).size_freed = 0)
    ∧ (gb * 1073741824 * 9 < directory_size dirs * 10 →
        ((clear_by_storage_limit gb dirs).final_size ≤ gb * 1073741824 * 4 / 5
          ∨ ∀ f ∈ (clear_by_storage_limit gb dirs).survivors, f.unlink_ok = false)
        ∧ (clear_by_storage_limit gb dirs).size_freed
            + (clear_by_storage_limit gb dirs).final_size = directory_size dirs
        ∧ ((∀ f ∈ recording_files dirs, f.unlink_ok = true) →
            (clear_by_storage_limit gb dirs).survivors <:+
              List.insertionSort date_le (recording_files dirs))
        ∧ (clear_by_storage_limit gb dirs).removed_count
            + (clear_by_storage_limit gb dirs).survivors.length
            = (recording_files dirs).length
        ∧ ((∀ f ∈ recording_files dirs, f.unlink_ok = true) →
            (clear_by_storage_limit gb dirs).survivors
                = (List.insertionSort date_le (recording_files dirs)).drop
                    (clear_by_storage_limit gb dirs).removed_count
            ∧ (clear_by_storage_limit gb dirs).size_freed
                = (((List.insertionSort date_le (recording_files dirs)).take
                      (clear_by_storage_limit gb dirs).removed_count).map
                    (fun f => f.size)).sum
            ∧ ∀ j < (clear_by_storage_limit gb dirs).removed_count,
                gb * 1073741824 * 4 / 5
                  < directory_size dirs
                      - (((List.insertionSort date_le (recording_files dirs)).take
                            j).map (fun f => f.size)).sum)) := by
  constructor
  · intro h
    refine ⟨?_, ?_⟩ <;> simp [clear_by_storage_limit, if_pos h]
  · intro h
    have hnot : ¬ (directory_size dirs * 10 ≤ gb * 1073741824 * 9) := by omega
    have hsum : ((List.insertionSort date_le (recording_files dirs)).map
        (fun f => f.size)).sum ≤ directory_size dirs := by
      rw [sorted_sizes_eq]
      exact recording_sizes_le dirs
    refine ⟨?_, ?_, ?_, ?_, ?_⟩
    · simpa only [clear_by_storage_limit, if_neg hnot] using
        evict_oldest_target (gb * 1073741824 * 4 / 5)
          (List.insertionSort date_le (recording_files dirs)) (directory_size dirs)
    · simpa only [clear_by_storage_limit, if_neg hnot] using
        evict_oldest_size (gb * 1073741824 * 4 / 5)
          (List.insertionSort date_le (recording_files dirs)) (directory_size dirs) hsum
    · intro hall
      have hall2 : ∀ f ∈ List.insertionSort date_le (recording_files dirs),
          f.unlink_ok = true := by
        intro f hf
        exact hall f ((List.perm_insertionSort date_le (recording_files dirs)).mem_iff.mp hf)
      simpa only [clear_by_storage_limit, if_neg hnot] using
        evict_oldest_suffix (gb * 1073741824 * 4 / 5)
          (List.insertionSort date_le (recording_files dirs)) hall2 (directory_size dirs)
    · have hlen : (List.insertionSort date_le (recording_files dirs)).length
          = (recording_files dirs).length :=
        (List.perm_insertionSort date_le (recording_files dirs)).length_eq
      have := evict_oldest_count (gb * 1073741824 * 4 / 5)
        (List.insertionSort date_le (recording_files dirs)) (directory_size dirs)
      simp only [clear_by_storage_limit, if_neg hnot]
      omega
    · intro hall
      have hall2 : ∀ f ∈ List.insertionSort date_le (recording_files dirs),
          f.unlink_ok = true := by
        intro f hf
        exact hall f ((List.perm_insertionSort date_le (recording_files dirs)).mem_iff.mp hf)
      simpa only [clear_by_storage_limit, if_neg hnot] using
        evict_oldest_take_drop (gb * 1073741824 * 4 / 5)
          (List.insertionSort date_le (recording_files dirs)) hall2 (directory_size dirs)

/-- C6 witness: the amended statement evaluated on a tree below the
threshold (nothing removed) and on a tree above it: eviction reaches the
80% target, the size accounting balances, the survivors are exactly the
sorted list minus its removed prefix, and removing zero files (one fewer
than the count actually removed) would have left the total above the
target. -/
theorem quota_eviction_spec_witness :
    ((clear_by_storage_limit 1 small_tree).removed_count = 0
      ∧ (clear_by_storage_limit 1 small_tree).size_freed = 0)
    ∧ ((clear_by_storage_limit 1 two_file_tree).final_size ≤ 1 * 1073741824 * 4 / 5
        ∨ ∀ f ∈ (clear_by_storage_limit 1 two_file_tree).survivors,
            f.unlink_ok = false)
    ∧ (clear_by_storage_limit 1 two_file_tree).size_freed
        + (clear_by_storage_limit 1 two_file_tree).final_size
        = directory_size two_file_tree
    ∧ (clear_by_storage_limit 1 two_file_tree).survivors
        = (List.insertionSort date_le (recording_files two_file_tree)).drop
            (clear_by_storage_limit 1 two_file_tree).removed_count
    ∧ 1 * 1073741824 * 4 / 5
        < directory_size two_file_tree
            - (((List.insertionSort date_le (recording_files two_file_tree)).take
                  0).map (fun f => f.size)).sum :=
  ⟨(quota_eviction_spec 1 small_tree).1 (by decide),
   ((quota_eviction_spec 1 two_file_tree).2 (by decide)).1,
   ((quota_eviction_spec 1 two_file_tree).2 (by decide)).2.1,
   (((quota_eviction_spec 1 two_file_tree).2 (by decide)).2.2.2.2 (by decide)).1,
   (((quota_eviction_spec 1 two_file_tree).2 (by decide)).2.2.2.2 (by decide)).2.2
     0 (by decide)⟩

/-! ## C7: the sidecar log under deletion operations -/

/-- C7 (code bug at the clear-all path): the age-based retention sweep
leaves the `ffmpeg_log.txt` sidecar in place even when every recording of
the directory is older than the cutoff, and the quota eviction never even
collects the sidecar as an eviction candidate — but `clear_all_recordings`
walks every file with no sidecar exclusion and removes the sidecar too
(both files of the tree are unlinked and both byte counts are reported),
contradicting the sidecar-is-never-deleted policy. -/
theorem sidecar_removed_by_clear_all :
    ((clear_old_recordings 99999999999 3 sidecar_tree).2
        = [{ name := "cam1", files := [sidecar_file] }])
    ∧ ((recording_files sidecar_tree).contains sidecar_file = false)
    ∧ clear_all_recordings sidecar_tree
        = (2, 1002048, [{ name := "cam1", files := [] }]) := by
  exact ⟨by decide, by decide, by decide⟩

/-! ## C8: scheduler behaviour when the day/night computation fails -/

/-- C8 counterexample: the sun-time calculation error (the
`SunTimeException` path of `_is_night_time`, recording_scheduler.py lines
128-131) for a camera that is currently recording does NOT skip the
camera: the error is mapped to `is_night = False` and the tick issues a
stop call, changing the camera's recording state. -/
theorem sun_error_triggers_stop :
    tick_camera_action 0 SunComputation.sunError true = some SchedAction.stop := by
  decide

/-- C8 (amended): a per-camera error that escapes the day/night
computation (any exception other than the sun-time one) is caught by the
tick's own handler and yields no start and no stop for that camera; the
sun-time calculation error is instead treated as daytime, yielding no
start but a stop when the camera is currently recording; in every case the
tick evaluates each camera of the list independently, so one camera's
error never aborts the remaining cameras. -/
theorem tick_error_handling (now_local : Int) (is_recording : Bool) :
    tick_camera_action now_local SunComputation.unexpectedError is_recording = none
    ∧ tick_camera_action now_local SunComputation.sunError is_recording
        = (if is_recording then some SchedAction.stop else none)
    ∧ (∀ (pre post : List (String × SunComputation × Bool))
        (c : String × SunComputation × Bool),
        tick_actions now_local (pre ++ c :: post)
          = tick_actions now_local pre
            ++ (c.1, tick_camera_action now_local c.2.1 c.2.2)
              :: tick_actions now_local post)
    ∧ (∀ cams : List (String × SunComputation × Bool),
        (tick_actions now_local cams).length = cams.length) := by
  refine ⟨rfl, ?_, ?_, ?_⟩
  · cases is_recording <;> rfl
  · intro pre post c
    simp [tick_actions]
  · intro cams
    simp [tick_actions]

/-! ## C9: registry exclusivity under concurrent starts -/

/-- C9 (code bug): the live-job guard of `start_recording` checks
`recording_processes`, which is only populated later by the spawned
recorder thread (recorder.py lines 385-386).  In the interleaving where
two `start_recording("cam1")` calls both complete before either spawned
thread registers its process, BOTH calls return true, two encoder
processes are launched, and the second call silently overwrites the first
job's stop flag and thread handle — the final registry holds only thread 2
and process 102, so the first job can no longer be stopped.  This refutes
"exactly one job is registered and every other call returns false". -/
theorem double_start_both_true :
    ((run_trace rec_state0
        [RecEvent.startCall "cam1" 1, RecEvent.startCall "cam1" 2,
         RecEvent.threadBody "cam1" 0 101, RecEvent.threadBody "cam1" 0 102]).1
      = [some true, some true, none, none])
    ∧ ((run_trace rec_state0
        [RecEvent.startCall "cam1" 1, RecEvent.startCall "cam1" 2,
         RecEvent.threadBody "cam1" 0 101, RecEvent.threadBody "cam1" 0 102]).2.recording_threads
      = [("cam1", 2)])
    ∧ ((run_trace rec_state0
        [RecEvent.startCall "cam1" 1, RecEvent.startCall "cam1" 2,
         RecEvent.threadBody "cam1" 0 101, RecEvent.threadBody "cam1" 0 102]).2.recording_processes
      = [("cam1", 102)]) := by
  exact ⟨by decide, by decide, by decide⟩

/-! ## C10: statistics survive a successful stop -/

/-- C10: a successful `stop_recording` returns true and leaves the
camera's statistics table untouched — `get_recording_stats` afterwards
still returns the last run's counters rendered from the stored record,
with uptime measured from the original `started_at`; a further
`start_recording` call also leaves the statistics unchanged, and the entry
is replaced (with fresh zeroed counters) only when a new recording run
initialises its stats. -/
theorem stats_survive_stop (s : RecorderState) (cam : String) (now : Int)
    (h : (s.recording_processes.lookup cam).isSome) :
    (stop_recording s cam).1 = true
    ∧ (stop_recording s cam).2.recording_stats = s.recording_stats
    ∧ get_recording_stats (stop_recording s cam).2 cam now
        = get_recording_stats s cam now
    ∧ (∀ st, s.recording_stats.lookup cam = some st →
        get_recording_stats (stop_recording s cam).2 cam now
          = some (stats_view st now))
    ∧ (∀ t, (start_recording (stop_recording s cam).2 cam t).2.recording_stats
        = (stop_recording s cam).2.recording_stats)
    ∧ (∀ t0 p q,
        ((run_init_stats (stop_recording s cam).2 cam t0 p q).recording_stats).lookup cam
          = some (fresh_stats cam t0 p q)) := by
  have hmain := stop_recording_live s cam h
  have hstats : (stop_recording s cam).2.recording_stats = s.recording_stats := by
    rw [hmain]
    show (stop_cleanup (stop_set_flag s cam) cam).recording_stats = s.recording_stats
    rw [stop_cleanup_stats, stop_set_flag_stats]
  have hok : (stop_recording s cam).1 = true := by rw [hmain]
  refine ⟨hok, hstats, ?_, ?_, ?_, ?_⟩
  · simp [get_recording_stats, hstats]
  · intro st hst
    simp [get_recording_stats, hstats, hst]
  · intro t
    unfold start_recording
    split
    · rfl
    · split
      · rfl
      · split
        · rfl
        · rfl
  · intro t0 p q
    simp [run_init_stats, lookup_dict_insert_self]

/-- C10 witness: stopping the live cam1 job of a concrete state succeeds
and the statistics query afterwards returns the same view as before. -/
theorem stats_survive_stop_witness :
    (stop_recording live_state "cam1").1 = true
    ∧ (stop_recording live_state "cam1").2.recording_stats
        = live_state.recording_stats
    ∧ get_recording_stats (stop_recording live_state "cam1").2 "cam1" 5000
        = get_recording_stats live_state "cam1" 5000 :=
  ⟨(stats_survive_stop live_state "cam1" 5000 (by decide)).1,
   (stats_survive_stop live_state "cam1" 5000 (by decide)).2.1,
   (stats_survive_stop live_state "cam1" 5000 (by decide)).2.2.1⟩

end Grabador
